import Mathlib

/-
Shallow embedding of the Dicecord host core (src/src/core) for checking the
natural-language design document against the code.

Modelled files:
  - src/src/core/ConnectionSupervisor.js  (retry loop, single-flight connect,
    reconnect timer debounce)
  - src/src/core/DicecordCore.js          (shutdown ordering, second class in
    the file, the one the design document describes)
  - src/src/core/PluginManager.js         (registration, lifecycle passes,
    event binding ledger, client facade)
  - src/src/core/PluginContract.js        (descriptor validation)

External collaborators (discord.js client, node EventEmitter dispatch, semver)
are modelled only at their interface: the semver range check is an oracle
parameter, and the transport dispatch loop is the sequential call-listeners
loop in which a thrown error would propagate.
-/

deriving instance DecidableEq for Except

namespace Dicecord

/-! ### Connection Supervisor: retry loop (ConnectionSupervisor.js, performLogin) -/

/-- Configuration fields read by performLogin. maximumRetries is an Int because
the code treats a negative value as unlimited retries. -/
structure RetryConfig where
  maximumRetries : Int
  initialDelayMs : Nat
  maximumDelayMs : Nat
  deriving DecidableEq

/-- Observable outcome of one performLogin run: how many login attempts were
made, which waits were performed between attempts, and how the promise
settled. loopExit records the (unreachable in practice) path in which the
while condition becomes false and performLogin resolves without a login. -/
inductive LoginOutcome where
  | connected (attempts : Nat) (waits : List Nat)
  | rejected (attempts : Nat) (waits : List Nat) (lastError : String)
  | loopExit (attempts : Nat) (waits : List Nat)
  | fuelOut
  deriving DecidableEq

/-- The while loop of performLogin (ConnectionSupervisor.js lines 53-81).
login gives, per attempt number, none on success or the thrown error.
fuel bounds the recursion; every terminating run of the code corresponds to a
run with enough fuel. -/
def performLoginLoop (cfg : RetryConfig) (login : Nat → Option String)
    (currentAttempt delay : Nat) (waits : List Nat) : Nat → LoginOutcome
  | 0 => .fuelOut
  | fuel + 1 =>
    if cfg.maximumRetries < 0 ∨ (currentAttempt : Int) ≤ cfg.maximumRetries then
      let attempt := currentAttempt + 1
      match login attempt with
      | none => .connected attempt waits
      | some err =>
        if 0 ≤ cfg.maximumRetries ∧ cfg.maximumRetries ≤ (attempt : Int) then
          .rejected attempt waits err
        else
          performLoginLoop cfg login attempt (min (delay * 2) cfg.maximumDelayMs)
            (waits ++ [delay]) fuel
    else
      .loopExit currentAttempt waits

/-- performLogin as called from connect(): currentAttempt has been reset to 0
and delay starts at initialDelayMs. -/
def performLogin (cfg : RetryConfig) (login : Nat → Option String) (fuel : Nat) :
    LoginOutcome :=
  performLoginLoop cfg login 0 cfg.initialDelayMs [] fuel

/-! ### Connection Supervisor: single-flight state (ConnectionSupervisor.js) -/

/-- The mutable supervisor fields that the single-flight claims are about.
Promise and timer identities are modelled as Nat tags. -/
structure SupervisorState where
  currentAttempt : Nat
  activeTimer : Option Nat
  connectPromise : Option Nat
  deriving DecidableEq

/-- Entry of connect() (lines 32-50): if a connectPromise exists it is
returned as-is; otherwise the attempt counter is reset and a fresh login
operation is stored. The result is (new state, promise the caller awaits,
whether a new login was started). -/
def connectEnter (s : SupervisorState) (fresh : Nat) :
    SupervisorState × Nat × Bool :=
  match s.connectPromise with
  | some p => (s, p, false)
  | none =>
    ({ s with currentAttempt := 0, connectPromise := some fresh }, fresh, true)

/-- scheduleReconnect (lines 116-130): if a timer is already pending the call
returns at once; otherwise a timer is armed with delay 0 (immediate) or
initialDelayMs. The result is (new state, delay of the newly armed timer, if
one was armed). -/
def scheduleReconnect (s : SupervisorState) (immediate : Bool)
    (initialDelayMs fresh : Nat) : SupervisorState × Option Nat :=
  match s.activeTimer with
  | some _ => (s, none)
  | none =>
    ({ s with activeTimer := some fresh },
      some (if immediate then 0 else initialDelayMs))

/-! ### Host Core: shutdown ordering (DicecordCore.js, shutdown) -/

/-- The externally visible steps of DicecordCore.shutdown, in the order the
method body can perform them. -/
inductive CoreAction where
  | logShutdown
  | setNotReady
  | clearTimer
  | deactivatePlugins
  | destroyTransport
  | closeLogger
  deriving DecidableEq, BEq

/-- Trace of DicecordCore.shutdown (lines 303-320): early return when the
client is absent, otherwise log, mark not ready, clear the supervisor timer,
deactivate plugins, destroy the client, and close the logger when it has a
close function. -/
def shutdownTrace (hasClient loggerHasClose : Bool) : List CoreAction :=
  if hasClient then
    [.logShutdown, .setNotReady, .clearTimer, .deactivatePlugins,
      .destroyTransport] ++ (if loggerHasClose then [.closeLogger] else [])
  else
    []

/-- a occurs in the trace and b occurs somewhere after the first occurrence
of a. -/
def precedes (t : List CoreAction) (a b : CoreAction) : Bool :=
  match t with
  | [] => false
  | x :: rest => if x = a then rest.contains b else precedes rest a b

/-! ### Plugin contract (PluginContract.js) -/

/-- The single supported plugin API version constant. -/
def SUPPORTED_PLUGIN_API_VERSION : String := "1.0.0"

/-- Optional version bounds of a manifest. -/
structure Compatibility where
  minimumCoreVersion : Option String
  maximumCoreVersion : Option String
  deriving DecidableEq

/-- Plugin manifest record. -/
structure Manifest where
  name : String
  version : String
  apiVersion : String
  description : Option String
  compatibility : Option Compatibility
  deriving DecidableEq

/-- Lifecycle hooks. The descriptor schema only requires each hook to be a
callable; here each hook is modelled by the settled outcome of invoking it
(ok, or the thrown/rejected error). -/
structure Hooks where
  onLoad : Except String Unit
  onActivate : Except String Unit
  onDeactivate : Except String Unit
  onDispose : Except String Unit
  deriving DecidableEq

/-- Plugin descriptor as consumed by register. events keeps the declared
event names (each declared handler is a callable, enforced by the schema);
the free-form exports mapping is opaque to the core and not modelled. -/
structure Descriptor where
  manifest : Manifest
  hooks : Hooks
  events : List String
  deriving DecidableEq

/-- String nonemptiness checks of the zod schema on the optional
compatibility bounds. -/
def validCompatibility : Option Compatibility → Bool
  | none => true
  | some c =>
    (match c.minimumCoreVersion with | none => true | some v => v.length != 0)
      && (match c.maximumCoreVersion with | none => true | some v => v.length != 0)

/-- validatePluginDescriptor (PluginContract.js lines 42-52): schema shape
checks (nonempty name, version, apiVersion, nonempty bounds when present),
then the exact apiVersion equality check with its distinct error. -/
def validatePluginDescriptor (d : Descriptor) : Except String Descriptor :=
  if d.manifest.name.length = 0 || d.manifest.version.length = 0
      || d.manifest.apiVersion.length = 0
      || !validCompatibility d.manifest.compatibility then
    .error "Descriptor failed schema validation."
  else if d.manifest.apiVersion != SUPPORTED_PLUGIN_API_VERSION then
    .error ("Unsupported plugin apiVersion " ++ d.manifest.apiVersion
      ++ ". Expected " ++ SUPPORTED_PLUGIN_API_VERSION ++ ".")
  else
    .ok d

/-! ### Plugin manager data model (PluginManager.js) -/

/-- Lifecycle states stored in entry.status. -/
inductive Status where
  | registered
  | loaded
  | active
  | error
  | disposed
  deriving DecidableEq

/-- One record of the per-plugin event binding ledger. The listener tag
stands for the object identity of the wrapped closure created by bindEvent. -/
structure Binding where
  eventName : String
  listener : Nat
  deriving DecidableEq

/-- Registry entry owned by the manager. -/
structure Entry where
  identity : String
  manifest : Manifest
  hooks : Hooks
  events : List String
  status : Status
  eventBindings : List Binding
  deriving DecidableEq

/-- Duck-typed capabilities that bindEvent and removeBinding probe on the
client value they are handed. -/
structure EventTarget where
  hasOn : Bool
  hasOff : Bool
  hasRemoveListener : Bool
  deriving DecidableEq

/-- The raw discord.js client: it has on, off and removeListener. -/
def rawClientCaps : EventTarget := { hasOn := true, hasOff := true, hasRemoveListener := true }

/-- The plugin context facade object exposes only sendMessage and getGuild,
so probing it for on, off or removeListener finds nothing. -/
def facadeEventCaps : EventTarget := { hasOn := false, hasOff := false, hasRemoveListener := false }

/-- The unsubscribe closure returned by bindEvent: either the harmless noop,
or a closure that captured the client, event name and wrapped listener. -/
inductive Unsubscribe where
  | noop
  | remove (client : EventTarget) (eventName : String) (listener : Nat)
  deriving DecidableEq

/-- removeBinding (lines 313-330): without a client it returns at once;
otherwise it unsubscribes on the client and prunes exactly the bindings
holding this listener from the ledger. -/
def removeBinding (p : Entry) (client : Option EventTarget)
    (_eventName : String) (listener : Nat) : Entry :=
  match client with
  | none => p
  | some _ =>
    { p with eventBindings := p.eventBindings.filter (fun b => b.listener != listener) }

/-- bindEvent (lines 252-294): degraded to a warning and a noop unsubscribe
when the client is missing or lacks on, the event name is empty, or the
handler is not callable; otherwise the wrapped listener is registered on the
client, recorded in the ledger, and a removing unsubscribe is returned. -/
def bindEvent (p : Entry) (client : Option EventTarget) (eventName : String)
    (handlerIsFn : Bool) (freshListener : Nat) : Entry × Unsubscribe :=
  match client with
  | none => (p, .noop)
  | some c =>
    if !c.hasOn then (p, .noop)
    else if eventName.length = 0 then (p, .noop)
    else if !handlerIsFn then (p, .noop)
    else
      ({ p with eventBindings :=
          p.eventBindings ++ [{ eventName := eventName, listener := freshListener }] },
        .remove c eventName freshListener)

/-- Invoking the unsubscribe closure returned by bindEvent against the current
entry state. -/
def runUnsubscribe (p : Entry) : Unsubscribe → Entry
  | .noop => p
  | .remove c eventName listener => removeBinding p (some c) eventName listener

/-- teardownEvents (lines 297-310): no-op on an empty ledger; otherwise every
recorded binding is removed via removeBinding (the loop iterates the list as
captured at its start) and the ledger is then cleared unconditionally. -/
def teardownEvents (p : Entry) (client : Option EventTarget) : Entry :=
  if p.eventBindings.isEmpty then p
  else
    let swept := p.eventBindings.foldl
      (fun q b => removeBinding q client b.eventName b.listener) p
    { swept with eventBindings := [] }

/-- bindDeclaredEvents (lines 233-249): the guard on pluginContext.client
never fires because the context always holds a facade object, and each
declared event is handed to bindEvent with that facade as the client; the
facade has no on capability, so every such bindEvent degrades to a noop.
Declared handlers are callables by the schema, hence handlerIsFn is true. -/
def bindDeclaredEvents (p : Entry) : Entry :=
  p.events.foldl
    (fun q eventName => (bindEvent q (some facadeEventCaps) eventName true 0).1) p

/-! ### Plugin manager lifecycle passes (PluginManager.js) -/

/-- Manager state the claims range over: declared core version and the
registry in registration order. -/
structure ManagerState where
  coreVersion : String
  plugins : List Entry
  deriving DecidableEq

/-- assertCompatibility (lines 333-363), with the semver satisfies check of
the external semver library as an oracle parameter sat. -/
def assertCompatibility (sat : String → String → Bool) (coreVersion : String)
    (m : Manifest) : Except String Unit :=
  match m.compatibility with
  | none => .ok ()
  | some c =>
    let rangeParts :=
      (match c.minimumCoreVersion with | none => [] | some v => [">=" ++ v])
        ++ (match c.maximumCoreVersion with | none => [] | some v => ["<=" ++ v])
    if rangeParts.isEmpty then .ok ()
    else if sat coreVersion (String.intercalate " " rangeParts) then .ok ()
    else
      .error ("Plugin " ++ m.name ++ "@" ++ m.version
        ++ " is not compatible with Dicecord core " ++ coreVersion
        ++ ". Expected " ++ String.intercalate " " rangeParts ++ ".")

/-- register (lines 23-65): validate, derive identity, reject duplicates,
check compatibility, push the entry with status registered, then run onLoad
inside try/catch, updating the pushed entry to loaded or error; the entry is
returned either way. The push followed by the in-place status update is
modelled by appending the settled entry. -/
def register (sat : String → String → Bool) (s : ManagerState) (d : Descriptor) :
    Except String (ManagerState × Entry) :=
  match validatePluginDescriptor d with
  | .error e => .error e
  | .ok parsed =>
    let identity := parsed.manifest.name ++ "@" ++ parsed.manifest.version
    if s.plugins.any (fun p => p.identity == identity) then
      .error ("Plugin with identity " ++ identity ++ " is already registered.")
    else
      match assertCompatibility sat s.coreVersion parsed.manifest with
      | .error e => .error e
      | .ok _ =>
        let entry0 : Entry :=
          { identity := identity, manifest := parsed.manifest,
            hooks := parsed.hooks, events := parsed.events,
            status := .registered, eventBindings := [] }
        let entry1 : Entry :=
          match parsed.hooks.onLoad with
          | .ok _ => { entry0 with status := Status.loaded }
          | .error _ => { entry0 with status := Status.error }
        .ok ({ s with plugins := s.plugins ++ [entry1] }, entry1)

/-- The snapshot items returned by list(). -/
structure PluginListItem where
  identity : String
  manifest : Manifest
  status : Status
  deriving DecidableEq

/-- list (lines 157-164). -/
def list (s : ManagerState) : List PluginListItem :=
  s.plugins.map (fun p => { identity := p.identity, manifest := p.manifest, status := p.status })

/-- Body of the activateAll loop for one entry (lines 70-94): entries whose
status is not loaded are skipped; on onActivate success the entry becomes
active and its declared events are bound (onto the facade); on failure it
becomes error and its bindings are torn down against the context client. -/
def activateOne (client : Option EventTarget) (p : Entry) : Entry :=
  if p.status != Status.loaded then p
  else
    match p.hooks.onActivate with
    | .ok _ => bindDeclaredEvents { p with status := Status.active }
    | .error _ => teardownEvents { p with status := Status.error } client

/-- activateAll (lines 68-95): the loop over the registry in order. -/
def activateAll (client : Option EventTarget) (ps : List Entry) : List Entry :=
  ps.map (activateOne client)

/-- Body of the deactivateAll loop for one entry (lines 100-126): entries
whose status is not active are skipped; onDeactivate success yields loaded,
failure yields error, and teardownEvents runs in the finally block either
way. -/
def deactivateOne (client : Option EventTarget) (p : Entry) : Entry :=
  if p.status != Status.active then p
  else
    let updated :=
      match p.hooks.onDeactivate with
      | .ok _ => { p with status := Status.loaded }
      | .error _ => { p with status := Status.error }
    teardownEvents updated client

/-- deactivateAll (lines 98-127): the loop over the registry in order. -/
def deactivateAll (client : Option EventTarget) (ps : List Entry) : List Entry :=
  ps.map (deactivateOne client)

/-! ### Handler wrapping and event dispatch (PluginManager.js, bindEvent) -/

/-- A log record produced through the manager log method. -/
structure LogEntry where
  level : String
  message : String
  detail : Option String
  deriving DecidableEq

/-- Observable behaviour of one plugin handler invocation: the outputs it
produced before returning or throwing, and the error it threw, if any. -/
structure HandlerRun where
  output : List Nat
  thrown : Option String
  deriving DecidableEq

/-- A plugin event handler, as a function of the dispatched event arguments
(modelled as a Nat). -/
def HandlerFn : Type := Nat → HandlerRun

/-- The log entry written by the wrapped listener when the handler throws
(line 280). -/
def handlerErrorLog (identity eventName err : String) : LogEntry :=
  { level := "error",
    message := "Plugin " ++ identity ++ " handler for " ++ eventName ++ " threw an error.",
    detail := some err }

/-- The wrapped closure built inside bindEvent (lines 272-282): it invokes the
handler, and converts a thrown error into an error log carrying the plugin
identity and the event name; the wrapped listener itself never throws. -/
def wrapHandler (identity eventName : String) (h : HandlerFn) :
    Nat → HandlerRun × List LogEntry :=
  fun args =>
    let r := h args
    match r.thrown with
    | none => ({ output := r.output, thrown := none }, [])
    | some err =>
      ({ output := r.output, thrown := none }, [handlerErrorLog identity eventName err])

/-- The transport dispatch loop (external collaborator, spec section 6): the
listeners registered for an event are invoked in order; an error thrown by a
listener propagates out of the loop and the remaining listeners do not run. -/
def dispatchAll (listeners : List (Nat → HandlerRun × List LogEntry)) (args : Nat) :
    Except String (List Nat × List LogEntry) :=
  match listeners with
  | [] => .ok ([], [])
  | l :: rest =>
    let (r, logs) := l args
    match r.thrown with
    | some err => .error err
    | none =>
      match dispatchAll rest args with
      | .error e => .error e
      | .ok (outs, moreLogs) => .ok (r.output ++ outs, logs ++ moreLogs)

/-! ### Client facade and plugin context (PluginManager.js) -/

/-- A guild object in the client guild cache, reduced to its id. -/
structure Guild where
  id : String
  deriving DecidableEq

/-- A channel as probed by the facade sendMessage: whether it is DM based and
the message produced by sending the payload to it. -/
structure Channel where
  isDMBased : Bool
  send : Nat → Nat

/-- The raw discord.js client surface read by createClientFacade. -/
structure RawClient where
  channels : String → Option Channel
  guilds : String → Option Guild

/-- The object returned by createClientFacade. Each capability is an Option
because the two branches of the source return objects with different key
sets. -/
structure ClientFacade where
  sendMessage : Option (String → Nat → Except String Nat)
  getGuild : Option (String → Option Guild)

/-- createClientFacade (lines 400-429): with no client, an object holding
only a sendMessage that always throws; with a client, sendMessage fetches the
channel, refuses missing or DM based channels, and sends, while getGuild
reads the guild cache and yields null when absent. -/
def createClientFacade (client : Option RawClient) : ClientFacade :=
  match client with
  | none =>
    { sendMessage := some (fun _ _ => .error "Discord client is not ready."),
      getGuild := none }
  | some c =>
    { sendMessage := some (fun channelId payload =>
        match c.channels channelId with
        | none => .error "Plugins are not permitted to send direct messages."
        | some channel =>
          if channel.isDMBased then
            .error "Plugins are not permitted to send direct messages."
          else
            .ok (channel.send payload)),
      getGuild := some (fun guildId => c.guilds guildId) }

/-- The slice of createPluginContext (lines 206-230) the facade claims are
about: the context client is the facade built over the base context client. -/
structure PluginContext where
  client : ClientFacade

/-- createPluginContext, restricted to the client capability it hands to
hooks and handlers. -/
def createPluginContext (baseClient : Option RawClient) : PluginContext :=
  { client := createClientFacade baseClient }

/-! ### Concrete sample values used by the witnesses -/

/-- A manifest accepted by the contract validator. -/
def sampleManifest : Manifest :=
  { name := "demo", version := "1.0.0", apiVersion := "1.0.0",
    description := none, compatibility := none }

/-- Hooks whose invocations all settle successfully. -/
def sampleHooksOk : Hooks :=
  { onLoad := .ok (), onActivate := .ok (), onDeactivate := .ok (), onDispose := .ok () }

/-- Hooks whose onLoad rejects. -/
def sampleHooksLoadFail : Hooks :=
  { onLoad := .error "load boom", onActivate := .ok (),
    onDeactivate := .ok (), onDispose := .ok () }

/-- A valid descriptor whose onLoad rejects. -/
def sampleDescriptorLoadFail : Descriptor :=
  { manifest := sampleManifest, hooks := sampleHooksLoadFail, events := [] }

/-- A valid descriptor whose hooks all succeed. -/
def sampleDescriptorOk : Descriptor :=
  { manifest := sampleManifest, hooks := sampleHooksOk, events := [] }

/-- An active entry holding one live event binding, with a failing
onDeactivate hook. -/
def sampleActiveEntry : Entry :=
  { identity := "demo@1.0.0", manifest := sampleManifest,
    hooks := { sampleHooksOk with onDeactivate := .error "deactivate boom" },
    events := [], status := .active,
    eventBindings := [{ eventName := "messageCreate", listener := 5 }] }

/-- An entry holding two live bindings with distinct listeners. -/
def sampleBoundEntry : Entry :=
  { identity := "demo@1.0.0", manifest := sampleManifest, hooks := sampleHooksOk,
    events := [], status := .active,
    eventBindings := [{ eventName := "messageCreate", listener := 1 }] }

/-- A handler that emits 7 and then throws. -/
def sampleThrowingHandler : HandlerFn :=
  fun _ => { output := [7], thrown := some "boom" }

/-- A handler that emits 9 and returns. -/
def sampleQuietHandler : HandlerFn :=
  fun _ => { output := [9], thrown := none }

/-- The entry produced by registering sampleDescriptorOk. -/
def sampleLoadedEntry : Entry :=
  { identity := "demo@1.0.0", manifest := sampleManifest, hooks := sampleHooksOk,
    events := [], status := .loaded, eventBindings := [] }

/-- An empty manager state. -/
def sampleStateEmpty : ManagerState :=
  { coreVersion := "0.3.0", plugins := [] }

/-- The manager state after registering sampleDescriptorOk into
sampleStateEmpty. -/
def sampleStateAfterRegister : ManagerState :=
  { coreVersion := "0.3.0", plugins := [sampleLoadedEntry] }

/-! ### Theorems -/

/-- Claim C1 (code divergence evidence): with maximumRetries = 2,
initialDelayMs = 100, maximumDelayMs = 1000 and a login that always fails,
performLogin as called from connect() rejects with the last error after
exactly 2 attempts and a single 100 ms wait, not after the 3 attempts with
waits of 100 ms and 200 ms that the design document states; the throw guard
currentAttempt >= maximumRetries fires one attempt earlier than the loop
guard currentAttempt <= maximumRetries admits. -/
theorem performLogin_two_retries_rejects_after_two_attempts :
    performLogin { maximumRetries := 2, initialDelayMs := 100, maximumDelayMs := 1000 }
      (fun _ => some "login failed") 8
      = .rejected 2 [100] "login failed" := by
  decide

/-- Claim C2 (counterexample): in the shutdown trace the deactivation of the
plugins does not precede the clearing of the reconnection timer, so the order
stated by the design document (deactivate, then clear, then destroy) does not
hold on the code. -/
theorem shutdown_deactivate_not_before_clear :
    precedes (shutdownTrace true true) .deactivatePlugins .clearTimer = false := by
  decide

/-- Claim C2 (amended): shutdown() first clears the pending reconnection
timer, then deactivates all plugins, then destroys the transport, and in
particular the transport is never destroyed before plugin deactivation has
run. -/
theorem shutdown_clear_then_deactivate_then_destroy :
    ∀ loggerHasClose : Bool,
      precedes (shutdownTrace true loggerHasClose) .clearTimer .deactivatePlugins = true
        ∧ precedes (shutdownTrace true loggerHasClose) .deactivatePlugins .destroyTransport = true := by
  decide

/-- Claim C3: the supervisor keeps at most one in-flight connect and at most
one pending reconnection timer: entering connect() while a connectPromise
exists returns that same promise without starting a second login and without
touching the state, and scheduleReconnect while a timer is pending leaves the
state unchanged and arms nothing. -/
theorem supervisor_single_flight (s : SupervisorState) (p t fresh fresh2 delayMs : Nat)
    (immediate : Bool) :
    (s.connectPromise = some p → connectEnter s fresh = (s, p, false))
      ∧ (s.activeTimer = some t →
          scheduleReconnect s immediate delayMs fresh2 = (s, none)) := by
  constructor
  · intro h
    simp [connectEnter, h]
  · intro h
    simp [scheduleReconnect, h]

/-- Claim C3 witness: the single-flight behaviour evaluated on a concrete
supervisor state holding a pending promise and a pending timer. -/
theorem supervisor_single_flight_witness :
    (connectEnter { currentAttempt := 4, activeTimer := some 7, connectPromise := some 3 } 9
        = ({ currentAttempt := 4, activeTimer := some 7, connectPromise := some 3 }, 3, false))
      ∧ (scheduleReconnect { currentAttempt := 4, activeTimer := some 7, connectPromise := some 3 }
            false 1000 11
          = ({ currentAttempt := 4, activeTimer := some 7, connectPromise := some 3 }, none)) :=
  ⟨(supervisor_single_flight _ 3 7 9 11 1000 false).1 rfl,
    (supervisor_single_flight _ 3 7 9 11 1000 false).2 rfl⟩

/-- Helper: teardownEvents always leaves an empty binding ledger. -/
theorem teardownEvents_eventBindings (p : Entry) (client : Option EventTarget) :
    (teardownEvents p client).eventBindings = [] := by
  unfold teardownEvents
  split
  · next h => exact List.isEmpty_iff.mp h
  · rfl

/-- Helper: removeBinding only touches the binding ledger. -/
theorem removeBinding_status (p : Entry) (client : Option EventTarget)
    (eventName : String) (listener : Nat) :
    (removeBinding p client eventName listener).status = p.status := by
  cases client <;> rfl

/-- Helper: sweeping the ledger with removeBinding preserves the status. -/
theorem sweepBindings_status (client : Option EventTarget) (l : List Binding) (q : Entry) :
    (l.foldl (fun q b => removeBinding q client b.eventName b.listener) q).status
      = q.status := by
  induction l generalizing q with
  | nil => rfl
  | cons b rest ih =>
    rw [List.foldl_cons, ih, removeBinding_status]

/-- Helper: teardownEvents preserves the status. -/
theorem teardownEvents_status (p : Entry) (client : Option EventTarget) :
    (teardownEvents p client).status = p.status := by
  unfold teardownEvents
  split
  · rfl
  · exact sweepBindings_status client p.eventBindings p

/-- Helper: bindEvent handed the context facade degrades to a noop, because
the facade object has no on capability. -/
theorem bindEvent_facade_noop (q : Entry) (eventName : String) (k : Nat) :
    (bindEvent q (some facadeEventCaps) eventName true k).1 = q := by
  simp [bindEvent, facadeEventCaps]

/-- Helper: binding the declared events of a plugin changes nothing, since
every declared event is bound against the facade. -/
theorem bindDeclaredEvents_eq (p : Entry) : bindDeclaredEvents p = p := by
  unfold bindDeclaredEvents
  generalize p.events = l
  induction l generalizing p with
  | nil => rfl
  | cons e rest ih =>
    rw [List.foldl_cons]
    rw [show (bindEvent p (some facadeEventCaps) e true 0).1 = p from
      bindEvent_facade_noop p e 0]
    exact ih p

/-- Helper: one activateAll step is idempotent on an entry. -/
theorem activateOne_idem (client : Option EventTarget) (p : Entry) :
    activateOne client (activateOne client p) = activateOne client p := by
  by_cases hp : p.status = Status.loaded
  · cases ha : p.hooks.onActivate with
    | ok u =>
      have h1 : activateOne client p = { p with status := Status.active } := by
        simp [activateOne, hp, ha, bindDeclaredEvents_eq]
      rw [h1]
      simp [activateOne]
    | error e =>
      have h1 : activateOne client p
          = teardownEvents { p with status := Status.error } client := by
        simp [activateOne, hp, ha]
      rw [h1]
      have hs : (teardownEvents { p with status := Status.error } client).status
          = Status.error := teardownEvents_status _ _
      simp [activateOne, hs]
  · have h1 : activateOne client p = p := by
      simp [activateOne, hp]
    rw [h1, h1]

/-- Claim C6: activateAll is idempotent: a second pass with the same context
and no state change in between leaves every plugin with the status it had
after the first pass, because only loaded entries are processed and the first
pass leaves no entry loaded. -/
theorem activateAll_idempotent (client : Option EventTarget) (ps : List Entry) :
    (activateAll client (activateAll client ps)).map Entry.status
      = (activateAll client ps).map Entry.status := by
  have h : activateAll client (activateAll client ps) = activateAll client ps := by
    unfold activateAll
    rw [List.map_map]
    exact List.map_congr_left fun a _ => activateOne_idem client a
  rw [h]

/-- Claim C5: after a deactivateAll pass, every plugin that was active when
the pass started has an empty binding ledger, whatever its onDeactivate hook
did and whether or not the context carried a connection. -/
theorem deactivateAll_clears_active_bindings (client : Option EventTarget)
    (ps : List Entry) (i : Nat) (hi : i < ps.length)
    (ha : (ps.get ⟨i, hi⟩).status = Status.active) :
    ((deactivateAll client ps).get
        ⟨i, by simpa [deactivateAll] using hi⟩).eventBindings = [] := by
  have hg : (deactivateAll client ps).get ⟨i, by simpa [deactivateAll] using hi⟩
      = deactivateOne client (ps.get ⟨i, hi⟩) := by
    simp [deactivateAll]
  rw [hg]
  simp only [List.get_eq_getElem] at ha
  simp [deactivateOne, ha, teardownEvents_eventBindings]

/-- Claim C5 witness: a concrete pass over one active entry with a failing
onDeactivate hook and no connection in the context still empties its binding
ledger. -/
theorem deactivateAll_clears_active_bindings_witness :
    ((deactivateAll none [sampleActiveEntry]).get ⟨0, by decide⟩).eventBindings = [] :=
  deactivateAll_clears_active_bindings none [sampleActiveEntry] 0 (by decide) (by decide)

/-- Claim C4: registering a valid, compatible descriptor into an empty
registry makes register succeed with exactly one listed entry, whose identity
is the derived name at version and whose status is loaded when onLoad
succeeded and error when it rejected; in the failure case register still
returns the entry rather than unwinding the registration. -/
theorem register_empty_list_single (sat : String → String → Bool) (cv : String)
    (d : Descriptor) (hv : validatePluginDescriptor d = .ok d)
    (hc : assertCompatibility sat cv d.manifest = .ok ()) :
    ∃ e : Entry,
      register sat { coreVersion := cv, plugins := [] } d
          = .ok ({ coreVersion := cv, plugins := [e] }, e)
        ∧ list { coreVersion := cv, plugins := [e] }
            = [{ identity := d.manifest.name ++ "@" ++ d.manifest.version,
                 manifest := d.manifest,
                 status := (match d.hooks.onLoad with
                   | .ok _ => Status.loaded
                   | .error _ => Status.error) }]
        ∧ e.status = (match d.hooks.onLoad with
            | .ok _ => Status.loaded
            | .error _ => Status.error) := by
  cases hl : d.hooks.onLoad with
  | ok u =>
    cases u
    refine ⟨{ identity := d.manifest.name ++ "@" ++ d.manifest.version,
              manifest := d.manifest, hooks := d.hooks, events := d.events,
              status := Status.loaded, eventBindings := [] }, ?_, ?_, ?_⟩
    · simp [register, hv, hc, hl]
    · simp [list, hl]
    · simp [hl]
  | error err =>
    refine ⟨{ identity := d.manifest.name ++ "@" ++ d.manifest.version,
              manifest := d.manifest, hooks := d.hooks, events := d.events,
              status := Status.error, eventBindings := [] }, ?_, ?_, ?_⟩
    · simp [register, hv, hc, hl]
    · simp [list, hl]
    · simp [hl]

/-- Claim C4 witness: a concrete valid descriptor whose onLoad rejects is
still registered, listed once with the derived identity and status error. -/
theorem register_empty_list_single_witness :
    ∃ e : Entry,
      register (fun _ _ => true) { coreVersion := "0.3.0", plugins := [] }
          sampleDescriptorLoadFail
          = .ok ({ coreVersion := "0.3.0", plugins := [e] }, e)
        ∧ list { coreVersion := "0.3.0", plugins := [e] }
            = [{ identity := sampleDescriptorLoadFail.manifest.name ++ "@"
                   ++ sampleDescriptorLoadFail.manifest.version,
                 manifest := sampleDescriptorLoadFail.manifest,
                 status := (match sampleDescriptorLoadFail.hooks.onLoad with
                   | .ok _ => Status.loaded
                   | .error _ => Status.error) }]
        ∧ e.status = (match sampleDescriptorLoadFail.hooks.onLoad with
            | .ok _ => Status.loaded
            | .error _ => Status.error) :=
  register_empty_list_single (fun _ _ => true) "0.3.0" sampleDescriptorLoadFail
    (by decide) rfl

/-- Claim C9: whenever register resolves, the entry it returns has settled to
status loaded or error, and list() shows the previous snapshot plus that one
settled entry: the transient registered status is not observable through
list() once register has resolved. -/
theorem register_settles_loaded_or_error (sat : String → String → Bool)
    (s : ManagerState) (d : Descriptor) (sOut : ManagerState) (e : Entry)
    (h : register sat s d = .ok (sOut, e)) :
    (e.status = Status.loaded ∨ e.status = Status.error)
      ∧ list sOut = list s
          ++ [{ identity := e.identity, manifest := e.manifest, status := e.status }] := by
  unfold register at h
  split at h
  · simp at h
  · next parsed hval =>
    split at h
    · dsimp only [] at h
      split at h <;> simp at h
    · split at h
      all_goals
        dsimp only [] at h
        split at h
        · simp at h
        · simp only [Except.ok.injEq, Prod.mk.injEq] at h
          obtain ⟨h1, h2⟩ := h
          subst h1
          subst h2
          constructor
          · first
            | exact Or.inl rfl
            | exact Or.inr rfl
          · simp [list]

/-- Claim C9 witness: a concrete successful registration settles to status
loaded and list() grows by exactly that settled entry. -/
theorem register_settles_loaded_or_error_witness :
    (sampleLoadedEntry.status = Status.loaded ∨ sampleLoadedEntry.status = Status.error)
      ∧ list sampleStateAfterRegister
        = list sampleStateEmpty
          ++ [{ identity := sampleLoadedEntry.identity,
                manifest := sampleLoadedEntry.manifest,
                status := sampleLoadedEntry.status }] :=
  register_settles_loaded_or_error (fun _ _ => true) sampleStateEmpty
    sampleDescriptorOk sampleStateAfterRegister sampleLoadedEntry (by decide)

/-- Claim C7: a handler wrapped by bindEvent that throws during dispatch has
its error caught and logged with the plugin identity and event name, the
dispatch loop settles normally instead of receiving the error, and a second
handler bound to the same event still runs and contributes its output. -/
theorem wrapped_handler_error_contained (identity eventName : String)
    (h1 h2 : HandlerFn) (args : Nat) (err : String)
    (hthrow : (h1 args).thrown = some err) :
    dispatchAll [wrapHandler identity eventName h1, wrapHandler identity eventName h2] args
      = .ok ((h1 args).output ++ (h2 args).output,
          handlerErrorLog identity eventName err
            :: (wrapHandler identity eventName h2 args).2) := by
  cases hth2 : (h2 args).thrown <;>
    simp [dispatchAll, wrapHandler, hthrow, hth2]

/-- Claim C7 witness: a concrete throwing handler is logged with the plugin
identity and event name while the quiet handler after it still runs. -/
theorem wrapped_handler_error_contained_witness :
    dispatchAll
        [wrapHandler "demo@1.0.0" "messageCreate" sampleThrowingHandler,
          wrapHandler "demo@1.0.0" "messageCreate" sampleQuietHandler] 0
      = .ok ([7, 9], [handlerErrorLog "demo@1.0.0" "messageCreate" "boom"]) :=
  wrapped_handler_error_contained "demo@1.0.0" "messageCreate"
    sampleThrowingHandler sampleQuietHandler 0 "boom" rfl

/-- Claim C8 (counterexample): when no live connection is supplied, the
facade handed to plugin code does not expose a getGuild operation at all, so
not every facade operation fails with the transport-not-ready error: one of
them is simply absent. -/
theorem facade_without_client_getGuild_absent :
    (createPluginContext none).client.getGuild = none := rfl

/-- Claim C8 (amended): when a plugin context is built with no live
connection, the facade exposes only sendMessage, every invocation of which
fails with the not-ready error, while getGuild is absent from the facade
object. -/
theorem facade_without_client_only_failing_sendMessage (channelId : String)
    (payload : Nat) :
    (createPluginContext none).client.sendMessage.map (fun f => f channelId payload)
        = some (.error "Discord client is not ready.")
      ∧ (createPluginContext none).client.getGuild = none :=
  ⟨rfl, rfl⟩

/-- Claim C10: the unsubscribe function returned by bindEvent is idempotent
on the binding ledger, and it prunes only bindings carrying its own wrapped
listener: every binding of the plugin with a different listener survives. -/
theorem unsubscribe_idempotent_and_exact (p : Entry) (client : Option EventTarget)
    (eventName : String) (handlerIsFn : Bool) (fresh : Nat) :
    runUnsubscribe
        (runUnsubscribe (bindEvent p client eventName handlerIsFn fresh).1
          (bindEvent p client eventName handlerIsFn fresh).2)
        (bindEvent p client eventName handlerIsFn fresh).2
      = runUnsubscribe (bindEvent p client eventName handlerIsFn fresh).1
          (bindEvent p client eventName handlerIsFn fresh).2
      ∧ ∀ b ∈ p.eventBindings, b.listener ≠ fresh →
          b ∈ (runUnsubscribe (bindEvent p client eventName handlerIsFn fresh).1
            (bindEvent p client eventName handlerIsFn fresh).2).eventBindings := by
  cases client with
  | none =>
    exact ⟨rfl, fun b hb _ => hb⟩
  | some c =>
    cases hOn : c.hasOn with
    | false =>
      constructor
      · simp [bindEvent, hOn, runUnsubscribe]
      · intro b hb _
        simpa [bindEvent, hOn, runUnsubscribe] using hb
    | true =>
      by_cases hName : eventName.length = 0
      · constructor
        · simp [bindEvent, hOn, hName, runUnsubscribe]
        · intro b hb _
          simpa [bindEvent, hOn, hName, runUnsubscribe] using hb
      · cases hFn : handlerIsFn with
        | false =>
          constructor
          · simp [bindEvent, hOn, hName, hFn, runUnsubscribe]
          · intro b hb _
            simpa [bindEvent, hOn, hName, hFn, runUnsubscribe] using hb
        | true =>
          constructor
          · simp [bindEvent, hOn, hName, hFn, runUnsubscribe, removeBinding,
              List.filter_filter]
          · intro b hb hne
            simp [bindEvent, hOn, hName, hFn, runUnsubscribe, removeBinding,
              List.mem_filter, hb, hne]

/-- Claim C10 witness: unsubscribing a concrete fresh binding twice equals
unsubscribing it once, and the pre-existing binding with listener 1
survives. -/
theorem unsubscribe_idempotent_and_exact_witness :
    runUnsubscribe
        (runUnsubscribe (bindEvent sampleBoundEntry (some rawClientCaps) "guildCreate" true 2).1
          (bindEvent sampleBoundEntry (some rawClientCaps) "guildCreate" true 2).2)
        (bindEvent sampleBoundEntry (some rawClientCaps) "guildCreate" true 2).2
      = runUnsubscribe (bindEvent sampleBoundEntry (some rawClientCaps) "guildCreate" true 2).1
          (bindEvent sampleBoundEntry (some rawClientCaps) "guildCreate" true 2).2
      ∧ ∀ b ∈ sampleBoundEntry.eventBindings, b.listener ≠ 2 →
          b ∈ (runUnsubscribe (bindEvent sampleBoundEntry (some rawClientCaps) "guildCreate" true 2).1
            (bindEvent sampleBoundEntry (some rawClientCaps) "guildCreate" true 2).2).eventBindings :=
  unsubscribe_idempotent_and_exact sampleBoundEntry (some rawClientCaps)
    "guildCreate" true 2

end Dicecord
